import Mathlib

/-!
Verification of the Infisical Backstage backend plugin's API gateway client
(`InfisicalApiClient` in `plugins/infisical-backend/src/service/infisicalApi.ts`).

The client is embedded shallowly: the mutable instance fields (`credentials`,
`tokenRefreshInProgress`) together with wall-clock time and observation
counters form an explicit `World` state that every operation threads through.
JavaScript promises that can reject are modelled with `Except`; `undefined`
is modelled with `Option`, and JavaScript truthiness of the optional string /
number fields is modelled by the `jsFalsy*` helpers (absent or `""` / `0` is
falsy).  The remote service is an explicit environment giving the outcome of
the k-th login call and of the k-th HTTP request.
-/

namespace InfisicalClient

/-- Does `needle` occur as a contiguous run inside `haystack`? -/
def containsSubstrAux (needle : List Char) : List Char → Bool
  | [] => needle.isEmpty
  | c :: rest => needle.isPrefixOf (c :: rest) || containsSubstrAux needle rest

/-- JS `haystack.includes(needle)` for the needle strings used by the source
(non-empty literals): the needle occurs as a contiguous substring. -/
def containsSubstr (haystack needle : String) : Bool :=
  containsSubstrAux needle.toList haystack.toList

/-- JS truthiness of an optional string: `undefined` and `""` are falsy. -/
def jsFalsyStr : Option String → Bool
  | none => true
  | some s => s = ""

/-- JS truthiness of an optional number: `undefined` and `0` are falsy. -/
def jsFalsyInt : Option Int → Bool
  | none => true
  | some i => i = 0

/-- JS template interpolation of a possibly-`undefined` string. -/
def jsStr : Option String → String
  | none => "undefined"
  | some s => s

/-- The error values thrown by the client: the generic `Error` and the three
typed Backstage errors produced by `parseErrorResponse`. -/
inductive JsError where
  | notFoundError (msg : String)
  | conflictError (msg : String)
  | inputError (msg : String)
  | error (msg : String)
  deriving DecidableEq, Repr

/-- `error.message`. -/
def JsError.message : JsError → String
  | .notFoundError m => m
  | .conflictError m => m
  | .inputError m => m
  | .error m => m

/-- The result of `response.json()` when a non-OK body is parsed as an
`ErrorResponse`: rejection, or the (possibly absent / falsy) `message` field. -/
abbrev ErrJsonResult := Except String (Option String)

/-- A `fetch` `Response`, as consumed by the source: status, the
`content-type` header, and the results of the `json()` / `text()` body reads
(each of which may reject).  `jsonBody` is the payload seen by the success
path, `errJson` the `message`-field view seen by the error path. -/
structure HttpResponse (α : Type) where
  status : Nat
  contentType : Option String
  jsonBody : Except String α
  errJson : ErrJsonResult
  textBody : Except String String

/-- `Response.ok`: status in the inclusive range 200-299. -/
def HttpResponse.isOk (r : HttpResponse α) : Bool :=
  200 ≤ r.status && r.status < 300

/-- `private maxRetries: number = 3`. -/
def maxRetries : Nat := 3

/-- `private retryDelay: number = 1000`. -/
def retryDelay : Nat := 1000

/-- `private retryStatusCodes: number[] = [408, 429, 500, 502, 503, 504]`. -/
def retryStatusCodes : List Nat := [408, 429, 500, 502, 503, 504]

/-- `contentType && contentType.includes('application/json')`: the branch
condition of `parseErrorResponse` (a `null` or empty header is falsy). -/
def jsonContentTypeDeclared (r : HttpResponse α) : Bool :=
  match r.contentType with
  | some ct => !(ct == "") && containsSubstr ct "application/json"
  | none => false

/-- `parseErrorResponse(response)`: classification of a non-OK response into a
typed error.  The outer try/catch of the source is the two `.error` fallback
cases; the function is total, mirroring "classification never throws". -/
def parseErrorResponse (r : HttpResponse α) : JsError :=
  if jsonContentTypeDeclared r then
    match r.errJson with
    | .ok m =>
        .error ("Infisical API error (" ++ toString r.status ++ "): " ++
          (if jsFalsyStr m then "Unknown error" else jsStr m))
    | .error _ =>
        .error ("Infisical API error (" ++ toString r.status ++
          "): Failed to parse error response")
  else
    match r.textBody with
    | .ok errorText =>
        if r.status = 404 then .notFoundError ("Resource not found: " ++ errorText)
        else if r.status = 409 then .conflictError ("Conflict: " ++ errorText)
        else if r.status = 400 then .inputError ("Bad request: " ++ errorText)
        else .error ("Infisical API error (" ++ toString r.status ++ "): " ++ errorText)
    | .error _ =>
        .error ("Infisical API error (" ++ toString r.status ++
          "): Failed to parse error response")

/-- `shouldRetry(error, statusCode)`: retry on a non-null error whose message
does not contain `'Invalid credentials'`, or on a truthy status code in
`retryStatusCodes`. -/
def shouldRetry (error : Option JsError) (statusCode : Option Nat) : Bool :=
  if (match error with
      | some e => !(containsSubstr e.message "Invalid credentials")
      | none => false) then
    true
  else if (match statusCode with
      | some s => !(s == 0) && retryStatusCodes.contains s
      | none => false) then
    true
  else
    false

/-- `AuthCredentials.type`. -/
inductive CredType where
  | apiToken
  | clientCredentials
  deriving DecidableEq, Repr

/-- The `AuthCredentials` record (all non-`type` fields optional, as in the
source interface). -/
structure AuthCredentials where
  type : CredType
  apiToken : Option String := none
  clientId : Option String := none
  clientSecret : Option String := none
  accessToken : Option String := none
  tokenExpiresAt : Option Int := none
  deriving DecidableEq, Repr

/-- Provenance of a write to the shared token state
(`credentials.accessToken` / `credentials.tokenExpiresAt`). -/
inductive TokenWrite where
  /-- the assignment of `accessToken` and `tokenExpiresAt` at the end of a
  successful `authenticateWithClientCredentials` login exchange -/
  | refreshWrite
  /-- the `this.credentials.tokenExpiresAt = 0` force-expire in the
  401-handling branch of `makeRequest` -/
  | forceExpire401
  deriving DecidableEq, Repr

/-- Observable trace events of one client operation. -/
inductive TraceEvent where
  | httpAttempt
  | loginCall
  | delayMs (ms : Nat)
  deriving DecidableEq, Repr

/-- The mutable state of one `InfisicalApiClient` instance, together with the
wall clock (`now`, advanced by the `setTimeout` sleeps) and the observation
log (counters, `setTimeout` durations, token-write provenance, event trace). -/
structure World where
  now : Int
  creds : AuthCredentials
  tokenRefreshInProgress : Bool := false
  loginCalls : Nat := 0
  fetches : Nat := 0
  waits : List Nat := []
  writes : List TokenWrite := []
  events : List TraceEvent := []
  deriving DecidableEq, Repr

/-- `await new Promise(resolve => setTimeout(resolve, d))`. -/
def waitMs (d : Nat) (w : World) : World :=
  { w with now := w.now + d, waits := w.waits ++ [d],
           events := w.events ++ [TraceEvent.delayMs d] }

/-- Outcome of the `fetch` of one login exchange
(`POST /api/v1/auth/universal-auth/login`). -/
inductive LoginOutcome where
  /-- the fetch promise rejects (network-level failure) -/
  | networkError (msg : String)
  /-- a non-OK response; `body` is what `response.text()` yields -/
  | httpError (status : Nat) (body : String)
  /-- an OK response whose `response.json()` rejects -/
  | jsonFail (msg : String)
  /-- an OK response parsed as `AuthTokenResponse` -/
  | success (accessToken : String) (expiresIn : Int)
  deriving DecidableEq, Repr

/-- Outcome of the `fetch` of one attempt of the main request. -/
inductive AttemptOutcome (α : Type) where
  /-- the fetch promise rejects (network-level failure) -/
  | networkError (msg : String)
  | response (r : HttpResponse α)

/-- The remote service: outcome of the k-th login call and of the k-th main
HTTP attempt made by the operation under consideration. -/
structure Env (α : Type) where
  loginOutcome : Nat → LoginOutcome
  attemptOutcome : Nat → AttemptOutcome α

/-- `authenticateWithClientCredentials()`: if a refresh is already in
progress, sleep a fixed 500 ms and return; otherwise set the
`tokenRefreshInProgress` flag, perform the login exchange, store the token
and its expiry (with the 300 s safety margin) on success, and clear the flag
on every exit (`finally`).  Errors are returned in the `Except`. -/
def authenticateWithClientCredentials (env : Env α) (w : World) :
    World × Except JsError Unit :=
  if w.tokenRefreshInProgress then
    (waitMs 500 w, .ok ())
  else
    let w1 := { w with tokenRefreshInProgress := true }
    if jsFalsyStr w1.creds.clientId || jsFalsyStr w1.creds.clientSecret then
      ({ w1 with tokenRefreshInProgress := false },
        .error (.error "Missing client ID or client secret for authentication"))
    else
      let outcome := env.loginOutcome w1.loginCalls
      let w2 := { w1 with loginCalls := w1.loginCalls + 1,
                          events := w1.events ++ [TraceEvent.loginCall] }
      match outcome with
      | .networkError msg =>
          ({ w2 with tokenRefreshInProgress := false }, .error (.error msg))
      | .httpError status body =>
          ({ w2 with tokenRefreshInProgress := false },
            .error (.error ("Failed to authenticate: " ++ toString status ++
              " - " ++ body)))
      | .jsonFail msg =>
          ({ w2 with tokenRefreshInProgress := false }, .error (.error msg))
      | .success accessToken expiresIn =>
          let expiresInMs := (expiresIn - 300) * 1000
          ({ w2 with
              creds := { w2.creds with
                accessToken := some accessToken,
                tokenExpiresAt := some (w2.now + expiresInMs) },
              writes := w2.writes ++ [TokenWrite.refreshWrite],
              tokenRefreshInProgress := false }, .ok ())

/-- The `isTokenExpired` condition of `ensureValidToken`:
`!accessToken || !tokenExpiresAt || Date.now() >= tokenExpiresAt`. -/
def isTokenExpired (w : World) : Bool :=
  jsFalsyStr w.creds.accessToken || jsFalsyInt w.creds.tokenExpiresAt ||
    decide (w.now ≥ (w.creds.tokenExpiresAt.getD 0))

/-- `ensureValidToken()`: a no-op unless the strategy is client credentials
and the token is absent / expired, in which case it refreshes. -/
def ensureValidToken (env : Env α) (w : World) : World × Except JsError Unit :=
  if w.creds.type ≠ .clientCredentials then
    (w, .ok ())
  else if isTokenExpired w then
    authenticateWithClientCredentials env w
  else
    (w, .ok ())

/-- `getAuthorizationHeader()`: `Bearer <apiToken>` for the static strategy;
otherwise re-ensure the token and use the current access token. -/
def getAuthorizationHeader (env : Env α) (w : World) :
    World × Except JsError String :=
  if w.creds.type = .apiToken then
    (w, .ok ("Bearer " ++ jsStr w.creds.apiToken))
  else
    match ensureValidToken env w with
    | (w1, .error e) => (w1, .error e)
    | (w1, .ok ()) => (w1, .ok ("Bearer " ++ jsStr w1.creds.accessToken))

/-- `RequestOptions` (the body payload itself is irrelevant to the control
flow of `makeRequest` and omitted here; `updateSecret`'s body is modelled
separately). -/
structure RequestOptions where
  method : String
  path : String
  retry : Option Bool := none
  deriving DecidableEq, Repr

/-- `options.retry !== false`. -/
def RequestOptions.retryEnabled (o : RequestOptions) : Bool :=
  match o.retry with
  | some false => false
  | _ => true

/-- `makeRequest(options, retryCount)`.  The recursion of the source is
bounded: every recursive call requires `retryCount < maxRetries` and passes
`retryCount + 1`, so its depth from `retryCount` is at most
`maxRetries - retryCount`; `fuel` is a structural bound on that depth and the
fuel-exhausted case is unreachable whenever `fuel > maxRetries - retryCount`
(see `makeRequest_fuel_irrelevant`).  The body mirrors the source's single
try/catch: every thrown error is routed through the catch's
`shouldRetry(error, null)` retry check. -/
def makeRequest (env : Env α) (options : RequestOptions) :
    Nat → Nat → World → World × Except JsError (Option α)
  | 0, _, w => (w, .error (.error "retry bound exhausted"))
  | fuel + 1, retryCount, w =>
    let retry := options.retryEnabled
    -- the catch block: every error thrown inside the try lands here
    let catchBlock := fun (e : JsError) (w1 : World) =>
      if retry && decide (retryCount < maxRetries) && shouldRetry (some e) none then
        makeRequest env options fuel (retryCount + 1)
          (waitMs (retryDelay * 2 ^ retryCount) w1)
      else
        (w1, .error e)
    match ensureValidToken env w with
    | (w1, .error e) => catchBlock e w1
    | (w1, .ok ()) =>
      match getAuthorizationHeader env w1 with
      | (w2, .error e) => catchBlock e w2
      | (w2, .ok _authHeader) =>
        let outcome := env.attemptOutcome w2.fetches
        let w3 := { w2 with fetches := w2.fetches + 1,
                            events := w2.events ++ [TraceEvent.httpAttempt] }
        match outcome with
        | .networkError msg => catchBlock (.error msg) w3
        | .response r =>
          if (r.status == 401) && (w3.creds.type == .clientCredentials) &&
              retry && decide (retryCount < maxRetries) then
            -- force token refresh: this.credentials.tokenExpiresAt = 0
            let w4 := { w3 with
              creds := { w3.creds with tokenExpiresAt := some 0 },
              writes := w3.writes ++ [TokenWrite.forceExpire401] }
            makeRequest env options fuel (retryCount + 1)
              (waitMs (retryDelay * 2 ^ retryCount) w4)
          else if !r.isOk then
            let e := parseErrorResponse r
            if retry && decide (retryCount < maxRetries) &&
                shouldRetry (some e) (some r.status) then
              makeRequest env options fuel (retryCount + 1)
                (waitMs (retryDelay * 2 ^ retryCount) w3)
            else
              -- `throw error` inside the try: caught by the catch block
              catchBlock e w3
          else if r.status == 204 then
            (w3, .ok none)
          else
            match r.jsonBody with
            | .ok data => (w3, .ok (some data))
            | .error msg => catchBlock (.error msg) w3

/-- The public entry of `makeRequest`: `retryCount` starts at 0, and
`maxRetries + 1` fuel covers the maximal recursion depth. -/
def runRequest (env : Env α) (options : RequestOptions) (w : World) :
    World × Except JsError (Option α) :=
  makeRequest env options (maxRetries + 1) 0 w

/-- A secret record (`InfisicalSecret` of `types.ts`; the optional
descriptive fields are carried so that the `{ ...s, readonly: true }` spread
is visibly field-preserving). -/
structure InfisicalSecret where
  id : String
  key : String
  value : String
  type : Option String := none
  comment : Option String := none
  version : Option Nat := none
  readonly : Option Bool := none
  deriving DecidableEq, Repr

/-- One entry of `InfisicalSecretsResponse.imports`. -/
structure ImportBlock where
  secrets : List InfisicalSecret
  deriving DecidableEq, Repr

/-- `InfisicalSecretsResponse`; both fields are `Option` because the source
guards both with optional chaining / `|| []`. -/
structure InfisicalSecretsResponse where
  secrets : Option (List InfisicalSecret) := none
  imports : Option (List ImportBlock) := none
  deriving DecidableEq, Repr

/-- `InfisicalFolder` of `types.ts`. -/
structure InfisicalFolder where
  id : String
  name : String
  version : Nat
  parentId : String
  isReserved : Bool
  description : String
  deriving DecidableEq, Repr

/-- `InfisicalFoldersResponse`; the `folders` field is guarded by `|| []` in
the source. -/
structure InfisicalFoldersResponse where
  folders : Option (List InfisicalFolder) := none
  deriving DecidableEq, Repr

/-- `{ ...s, readonly: true }`. -/
def setReadonlyTrue (s : InfisicalSecret) : InfisicalSecret :=
  { s with readonly := some true }

/-- The aggregation step of `getSecrets` applied to the two (already
successful) remote responses:
`secretsResponse?.secrets || []`,
`secretsResponse?.imports?.reduce((acc, imp) => acc.concat(imp.secrets), []).map(s => ({...s, readonly: true})) || []`,
`foldersResponse.folders || []`. -/
def aggregateSecrets (secretsResponse : Option InfisicalSecretsResponse)
    (foldersResponse : InfisicalFoldersResponse) :
    List InfisicalSecret × List InfisicalFolder :=
  let secrets := ((secretsResponse.map (·.secrets)).join).getD []
  let importedSecrets :=
    match secretsResponse.bind (·.imports) with
    | none => []
    | some imps =>
        (imps.foldl (fun acc imp => acc ++ imp.secrets) []).map setReadonlyTrue
  (secrets ++ importedSecrets, foldersResponse.folders.getD [])

/-- The environments used by one `getSecrets` call: login outcomes, plus the
outcome of the k-th fetch of each of the two inner `makeRequest`s (the
secrets request runs first, the folders request second; they share the
client's fetch counter). -/
structure GetSecretsEnv where
  loginOutcome : Nat → LoginOutcome
  secretsAttempt : Nat → AttemptOutcome InfisicalSecretsResponse
  foldersAttempt : Nat → AttemptOutcome InfisicalFoldersResponse

/-- The `Env` seen by the inner secrets `makeRequest`. -/
def GetSecretsEnv.secretsEnv (env : GetSecretsEnv) : Env InfisicalSecretsResponse :=
  ⟨env.loginOutcome, env.secretsAttempt⟩

/-- The `Env` seen by the inner folders `makeRequest`. -/
def GetSecretsEnv.foldersEnv (env : GetSecretsEnv) : Env InfisicalFoldersResponse :=
  ⟨env.loginOutcome, env.foldersAttempt⟩

/-- Query/path shape of the two requests issued by `getSecrets` (bodies are
irrelevant to `makeRequest`'s control flow). -/
def getSecretsRequestOptions : RequestOptions :=
  { method := "GET", path := "/v3/secrets/raw" }

/-- Query/path shape of the folders request issued by `getSecrets`. -/
def getFoldersRequestOptions : RequestOptions :=
  { method := "GET", path := "/v1/folders" }

/-- `getSecrets(workspaceId, path, environment)`: two `makeRequest`s, then
aggregation.  A `.error` in either request propagates (the catch logs and
rethrows).  If the folders response was `undefined` (a 204), the source's
`foldersResponse.folders` dereference throws a `TypeError`, modelled by the
corresponding `.error`. -/
def getSecrets (env : GetSecretsEnv) (w : World) :
    World × Except JsError (List InfisicalSecret × List InfisicalFolder) :=
  match runRequest env.secretsEnv getSecretsRequestOptions w with
  | (w1, .error e) => (w1, .error e)
  | (w1, .ok secretsResponse) =>
    match runRequest env.foldersEnv getFoldersRequestOptions w1 with
    | (w2, .error e) => (w2, .error e)
    | (w2, .ok none) =>
        (w2, .error (.error
          "TypeError: Cannot read properties of undefined (reading folders)"))
    | (w2, .ok (some foldersResponse)) =>
        (w2, .ok (aggregateSecrets secretsResponse foldersResponse))

/-- `InfisicalSecretUpdateRequest` as the router actually populates it
(`secretKey` / `secretValue` naming, as used by `updateSecret` itself). -/
structure InfisicalSecretUpdateRequest where
  secretKey : String
  secretValue : String
  workspaceId : String
  secretPath : Option String := none
  environment : Option String := none
  deriving DecidableEq, Repr

/-- The JSON body sent by `updateSecret`: the spread of the update request
plus the conditional `newSecretName` field. -/
structure UpdateSecretBody where
  secretKey : String
  secretValue : String
  workspaceId : String
  secretPath : Option String := none
  environment : Option String := none
  newSecretName : Option String := none
  deriving DecidableEq, Repr

/-- The field names present in `JSON.stringify` of the body
(`undefined`-valued fields are dropped by `JSON.stringify`). -/
def UpdateSecretBody.serializedKeys (b : UpdateSecretBody) : List String :=
  ["secretKey", "secretValue", "workspaceId"] ++
    (match b.secretPath with | some _ => ["secretPath"] | none => []) ++
    (match b.environment with | some _ => ["environment"] | none => []) ++
    (match b.newSecretName with | some _ => ["newSecretName"] | none => [])

/-- The request path and body built by `updateSecret(secretData, secretId)`:
`PATCH /v3/secrets/raw/${secretId}` with body
`{ ...secretData, newSecretName: secretData.secretKey !== secretId ? secretData.secretKey : undefined }`. -/
def updateSecretRequestParts (secretData : InfisicalSecretUpdateRequest)
    (secretId : String) : String × UpdateSecretBody :=
  ("/v3/secrets/raw/" ++ secretId,
   { secretKey := secretData.secretKey
     secretValue := secretData.secretValue
     workspaceId := secretData.workspaceId
     secretPath := secretData.secretPath
     environment := secretData.environment
     newSecretName :=
       if secretData.secretKey ≠ secretId then some secretData.secretKey
       else none })

/-- A fresh client configured with the static-token strategy
(`{ type: 'api-token', apiToken }`), at wall-clock time `now0`. -/
def mkStaticWorld (tok : String) (now0 : Int) : World :=
  { now := now0, creds := { type := .apiToken, apiToken := some tok } }

/-- A client configured with the client-credentials strategy, with the given
stored access token / expiry, at wall-clock time `now0`. -/
def mkDynWorld (cid csec : String) (accessToken : Option String)
    (tokenExpiresAt : Option Int) (now0 : Int) : World :=
  { now := now0,
    creds := { type := .clientCredentials, clientId := some cid,
               clientSecret := some csec, accessToken := accessToken,
               tokenExpiresAt := tokenExpiresAt } }

/-- A remote service answering the k-th HTTP attempt with the k-th element of
`rs` (and `dflt` beyond), and every login with `login`. -/
def seqEnv (login : Nat → LoginOutcome) (rs : List (AttemptOutcome α))
    (dflt : AttemptOutcome α) : Env α :=
  ⟨login, fun k => rs.getD k dflt⟩

/-- An OK 200 response carrying payload `v` as its parsed JSON body. -/
def okJsonResponse (v : α) : HttpResponse α :=
  { status := 200, contentType := some "application/json",
    jsonBody := .ok v, errJson := .ok none, textBody := .ok "" }

/-- A remote service for `getSecrets` answering the secrets request with `sr`
and the folders request with `fr`, both 200 OK. -/
def mkGetSecretsEnv (sr : InfisicalSecretsResponse)
    (fr : InfisicalFoldersResponse) : GetSecretsEnv :=
  ⟨fun _ => .networkError "no login expected",
   fun _ => .response (okJsonResponse sr),
   fun _ => .response (okJsonResponse fr)⟩

/-- The shared-state relation of the amended C4 claim: along a run from `w`
to `w'`, the write log only grows, the stored access token changes only if a
refresh-path write (`refreshWrite`) was logged, and the stored token expiry
changes only if a refresh-path write or the 401 force-expire write was
logged.  Because the model appends `refreshWrite` exactly at the source's
login-exchange assignment and `forceExpire401` exactly at the source's
`tokenExpiresAt = 0` statement, this says those two sites are the only
writers of the token fields. -/
def TokenWriteDiscipline (w w' : World) : Prop :=
  ∃ L, w'.writes = w.writes ++ L ∧
    (L.count TokenWrite.refreshWrite = 0 →
      w'.creds.accessToken = w.creds.accessToken) ∧
    (L.count TokenWrite.refreshWrite = 0 ∧
        L.count TokenWrite.forceExpire401 = 0 →
      w'.creds.tokenExpiresAt = w.creds.tokenExpiresAt)

/-!
Run-to-completion concurrency model for the token authenticator.

JavaScript executes each `async` function synchronously up to its first
`await`.  For an operation on a client whose credential store holds no
token, the first synchronous slice runs `ensureValidToken` (the expiry check
is synchronous and sees "expired") and then the front of
`authenticateWithClientCredentials` up to its first `await`: either the
`tokenRefreshInProgress` flag is set and the `await` of the 500 ms
`setTimeout` is reached, or the flag is set to `true` and the `await` of the
login `fetch` is reached.  N simultaneous operations therefore execute their
N first slices back-to-back before any fetch or timer resolution runs.
-/

/-- Shared state visible to the first slices: the refresh flag and the count
of login calls issued. -/
structure ConcState where
  tokenRefreshInProgress : Bool
  loginCalls : Nat
  deriving DecidableEq, Repr

/-- Where an operation's first slice suspends. -/
inductive FirstSliceResult where
  /-- the flag was clear: this operation set it and issued the login fetch -/
  | startedLogin
  /-- the flag was set: this operation scheduled the fixed 500 ms sleep of
  `authenticateWithClientCredentials` and will return when it fires -/
  | sleeping500
  deriving DecidableEq, Repr

/-- The first synchronous slice of `authenticateWithClientCredentials` for a
properly configured dynamic client (non-falsy `clientId`/`clientSecret`). -/
def authFirstSlice (s : ConcState) : ConcState × FirstSliceResult :=
  if s.tokenRefreshInProgress then
    (s, .sleeping500)
  else
    ({ tokenRefreshInProgress := true, loginCalls := s.loginCalls + 1 },
      .startedLogin)

/-- `n` simultaneous operations with no prior token: their first slices run
back-to-back (run-to-completion), each against the state the previous one
left. -/
def runSimultaneousOps : Nat → ConcState → ConcState × List FirstSliceResult
  | 0, s => (s, [])
  | n + 1, s =>
    let (s1, r) := authFirstSlice s
    let (s2, rs) := runSimultaneousOps n s1
    (s2, r :: rs)

/-!
Concrete scenarios used to evaluate the client on specific inputs.
-/

/-- A 400 response with a plain-text body `"bad parameter"`. -/
def resp400text : HttpResponse Unit :=
  { status := 400, contentType := none, jsonBody := .error "unused",
    errJson := .error "unused", textBody := .ok "bad parameter" }

/-- A remote service answering every attempt with `resp400text`. -/
def env400 : Env Unit :=
  ⟨fun _ => .networkError "no login expected", fun _ => .response resp400text⟩

/-- A 401 response with a plain-text body `"unauthorized"`. -/
def resp401text : HttpResponse Unit :=
  { status := 401, contentType := none, jsonBody := .error "unused",
    errJson := .error "unused", textBody := .ok "unauthorized" }

/-- A remote service answering every attempt with `resp401text`. -/
def env401static : Env Unit :=
  ⟨fun _ => .networkError "no login expected", fun _ => .response resp401text⟩

/-- A remote service answering every attempt with 401 and failing every
login call at the network level. -/
def envForceExpire : Env Unit :=
  ⟨fun _ => .networkError "login down", fun _ => .response resp401text⟩

/-- A static-token client at time 0. -/
def staticWorld0 : World := mkStaticWorld "test-api-token" 0

/-- A dynamic client holding a locally valid token (expiry far in the
future) at time 0. -/
def dynWorldValidTok : World :=
  mkDynWorld "test-client-id" "test-client-secret" (some "tok")
    (some 1000000000) 0

/-- A remote service whose login exchange succeeds with a fresh token. -/
def envSuccLogin : Env Unit :=
  ⟨fun _ => .success "fresh-token" 3600,
   fun _ => .networkError "no request expected"⟩

/-- A remote service whose login exchange fails at the network level. -/
def envFailLogin : Env Unit :=
  ⟨fun _ => .networkError "login down",
   fun _ => .networkError "no request expected"⟩

/-- A dynamic client with no token whose `tokenRefreshInProgress` flag is
set: another caller's refresh is in flight. -/
def busyRefreshWorld : World :=
  { mkDynWorld "test-client-id" "test-client-secret" none none 0 with
      tokenRefreshInProgress := true }

/-- A 418 response declaring a JSON content type whose body parses to
an object with message field `"teapot"`. -/
def respJson418 : HttpResponse Unit :=
  { status := 418, contentType := some "application/json",
    jsonBody := .error "unused", errJson := .ok (some "teapot"),
    textBody := .ok "body" }

/-!
Helper lemmas.
-/

/-- Any status in `retryStatusCodes` makes `shouldRetry` true, whatever the
error argument is. -/
theorem shouldRetry_of_retryable_status (e : Option JsError) (s : Nat)
    (h1 : retryStatusCodes.contains s = true) (h2 : (s == 0) = false) :
    shouldRetry e (some s) = true := by
  have h3 : s ∈ retryStatusCodes := by simpa using h1
  unfold shouldRetry
  rcases e with _ | e
  · simp [h3, h2]
  · cases hc : containsSubstr e.message "Invalid credentials" <;> simp [hc, h3, h2]

/-- The source's `reduce((acc, imp) => acc.concat(imp.secrets), [])` is the
flattening of the import blocks' secret lists. -/
theorem foldl_concat_blocks (I : List ImportBlock) (acc : List InfisicalSecret) :
    I.foldl (fun acc imp => acc ++ imp.secrets) acc =
      acc ++ (I.map ImportBlock.secrets).flatten := by
  induction I generalizing acc with
  | nil => simp
  | cons b bs ih => simp [ih]

/-- `TokenWriteDiscipline` is reflexive. -/
theorem twd_refl (w : World) : TokenWriteDiscipline w w :=
  ⟨[], by simp, fun _ => rfl, fun _ => rfl⟩

/-- `TokenWriteDiscipline` composes along consecutive runs. -/
theorem twd_trans {w1 w2 w3 : World} (h1 : TokenWriteDiscipline w1 w2)
    (h2 : TokenWriteDiscipline w2 w3) : TokenWriteDiscipline w1 w3 := by
  obtain ⟨L1, hw1, ha1, ht1⟩ := h1
  obtain ⟨L2, hw2, ha2, ht2⟩ := h2
  refine ⟨L1 ++ L2, by simp [hw2, hw1], ?_, ?_⟩
  · intro hc
    simp [List.count_append] at hc
    rw [ha2 hc.2, ha1 hc.1]
  · rintro ⟨hc1, hc2⟩
    simp [List.count_append] at hc1 hc2
    rw [ht2 ⟨hc1.2, hc2.2⟩, ht1 ⟨hc1.1, hc2.1⟩]

/-- A step that neither logs a write nor touches the credentials satisfies
the discipline. -/
theorem twd_of_same {w w' : World} (hw : w'.writes = w.writes)
    (hc : w'.creds = w.creds) : TokenWriteDiscipline w w' :=
  ⟨[], by simp [hw], fun _ => by rw [hc], fun _ => by rw [hc]⟩

/-- `setTimeout` sleeps satisfy the discipline. -/
theorem twd_waitMs (d : Nat) (w : World) : TokenWriteDiscipline w (waitMs d w) :=
  twd_of_same rfl rfl

/-- `authenticateWithClientCredentials` satisfies the discipline: its only
write to the token fields is the logged refresh-path write. -/
theorem twd_auth {α : Type} (env : Env α) (w : World) :
    TokenWriteDiscipline w (authenticateWithClientCredentials env w).1 := by
  unfold authenticateWithClientCredentials
  dsimp only
  split
  · exact twd_waitMs 500 w
  · split
    · exact twd_of_same rfl rfl
    · split
      · exact twd_of_same rfl rfl
      · exact twd_of_same rfl rfl
      · exact twd_of_same rfl rfl
      · exact ⟨[.refreshWrite], by simp, fun hc => absurd hc (by decide),
          fun hc => absurd hc.1 (by decide)⟩

/-- `ensureValidToken` satisfies the discipline. -/
theorem twd_ensure {α : Type} (env : Env α) (w : World) :
    TokenWriteDiscipline w (ensureValidToken env w).1 := by
  unfold ensureValidToken
  split
  · exact twd_refl w
  · split
    · exact twd_auth env w
    · exact twd_refl w

/-- `getAuthorizationHeader` satisfies the discipline. -/
theorem twd_getAuth {α : Type} (env : Env α) (w : World) :
    TokenWriteDiscipline w (getAuthorizationHeader env w).1 := by
  unfold getAuthorizationHeader
  split
  · exact twd_refl w
  · split <;> rename_i x w1 r hE <;>
      { have h := twd_ensure env w
        rw [hE] at h
        exact h }

/-- With a refresh already in flight, every further first slice sleeps. -/
theorem runSimultaneousOps_busy (n : Nat) (s : ConcState)
    (h : s.tokenRefreshInProgress = true) :
    runSimultaneousOps n s = (s, List.replicate n .sleeping500) := by
  induction n with
  | zero => simp [runSimultaneousOps]
  | succ n ih => simp [runSimultaneousOps, authFirstSlice, h, ih, List.replicate]

/-!
Claim theorems.
-/

/-- C1: the claim says a 400 response is never retried and the classified
`InvalidInput` error is raised after the single attempt that produced it.
The code violates this: `makeRequest` hands the (always non-null) classified
error to `shouldRetry`, whose first branch retries any error whose message
lacks `'Invalid credentials'`, so a 400 with text body `"bad parameter"` on
a static-token client with full retry budget is retried three times — four
HTTP attempts with the full backoff schedule — before the `InputError` is
raised. -/
theorem claim_C1_code_retries_400 :
    (runRequest env400 getSecretsRequestOptions staticWorld0).1.fetches = 4 ∧
    (runRequest env400 getSecretsRequestOptions staticWorld0).1.waits =
      [1000, 2000, 4000] ∧
    (runRequest env400 getSecretsRequestOptions staticWorld0).2 =
      .error (.inputError "Bad request: bad parameter") :=
  ⟨rfl, rfl, rfl⟩

/-- C2: the claim says a 401 response on a static-token client is never
retried and propagates immediately.  The code violates this: the dedicated
401 branch is skipped (strategy is not client-credentials), but the generic
error branch retries because the classified error's message
(`Infisical API error (401): unauthorized`) does not contain
`'Invalid credentials'` — four HTTP attempts with the full backoff schedule
before the error is raised. -/
theorem claim_C2_code_retries_static_401 :
    (runRequest env401static getSecretsRequestOptions staticWorld0).1.fetches = 4 ∧
    (runRequest env401static getSecretsRequestOptions staticWorld0).1.waits =
      [1000, 2000, 4000] ∧
    (runRequest env401static getSecretsRequestOptions staticWorld0).2 =
      .error (.error "Infisical API error (401): unauthorized") :=
  ⟨rfl, rfl, rfl⟩

/-- C3: a request whose first three attempts return 503 and whose fourth
returns 200 performs exactly 4 HTTP attempts, sleeping 1000 ms, 2000 ms and
4000 ms before the second, third and fourth attempts respectively
(`retryDelay * 2 ^ retryCount`), and returns the parsed JSON body of the
successful response.  Shown for any static-token client, any request
options with the default retry flag, and any such responses. -/
theorem claim_C3_retry_schedule {α : Type} (m p tok : String) (now0 : Int)
    (login : Nat → LoginOutcome) (dflt : AttemptOutcome α)
    (r1 r2 r3 r4 : HttpResponse α) (v : α)
    (h1 : r1.status = 503) (h2 : r2.status = 503) (h3 : r3.status = 503)
    (h4 : r4.status = 200) (hv : r4.jsonBody = .ok v) :
    runRequest (seqEnv login [.response r1, .response r2, .response r3, .response r4] dflt)
      { method := m, path := p } (mkStaticWorld tok now0) =
      ({ mkStaticWorld tok now0 with
          fetches := 4, now := now0 + 7000,
          waits := [1000, 2000, 4000],
          events := [.httpAttempt, .delayMs 1000, .httpAttempt, .delayMs 2000,
                     .httpAttempt, .delayMs 4000, .httpAttempt] },
        .ok (some v)) := by
  have hsr : ∀ e, shouldRetry e (some 503) = true := fun e =>
    shouldRetry_of_retryable_status e 503 (by decide) (by decide)
  simp [runRequest, makeRequest, ensureValidToken, getAuthorizationHeader,
    mkStaticWorld, seqEnv, waitMs, h1, h2, h3, h4, hv, hsr,
    HttpResponse.isOk, RequestOptions.retryEnabled, maxRetries, retryDelay]
  omega

/-- Witness for C3: the schedule at a concrete 503/503/503/200 run. -/
theorem claim_C3_retry_schedule_witness :
    runRequest (seqEnv (fun _ => LoginOutcome.networkError "no login")
        [.response { status := 503, contentType := none, jsonBody := .error "u",
                     errJson := .error "u", textBody := .ok "unavailable" },
         .response { status := 503, contentType := none, jsonBody := .error "u",
                     errJson := .error "u", textBody := .ok "unavailable" },
         .response { status := 503, contentType := none, jsonBody := .error "u",
                     errJson := .error "u", textBody := .ok "unavailable" },
         .response (okJsonResponse (42 : Nat))] (.networkError "x"))
      { method := "GET", path := "/v3/secrets/raw" } (mkStaticWorld "tok" 0) =
      ({ mkStaticWorld "tok" 0 with
          fetches := 4, now := 7000,
          waits := [1000, 2000, 4000],
          events := [.httpAttempt, .delayMs 1000, .httpAttempt, .delayMs 2000,
                     .httpAttempt, .delayMs 4000, .httpAttempt] },
        .ok (some 42)) := by
  have h := claim_C3_retry_schedule (α := Nat) "GET" "/v3/secrets/raw" "tok" 0
    (fun _ => LoginOutcome.networkError "no login") (.networkError "x")
    { status := 503, contentType := none, jsonBody := .error "u",
      errJson := .error "u", textBody := .ok "unavailable" }
    { status := 503, contentType := none, jsonBody := .error "u",
      errJson := .error "u", textBody := .ok "unavailable" }
    { status := 503, contentType := none, jsonBody := .error "u",
      errJson := .error "u", textBody := .ok "unavailable" }
    (okJsonResponse 42) 42 rfl rfl rfl rfl rfl
  simpa using h

/-- C4, amended: the stored access token and token expiry are written only
inside the token authenticator's refresh path or by the 401-handling branch
of `makeRequest`, which force-expires the stored expiry (`tokenExpiresAt = 0`)
before re-authenticating; the access token itself is written only in the
refresh path.  Formally: along any `makeRequest` run the write log only
grows, the access token changes only if a `refreshWrite` was logged, and the
expiry changes only if a `refreshWrite` or `forceExpire401` was logged —
and those log entries are appended exactly at the two mutation sites of the
source. -/
theorem claim_C4_amended_token_writes {α : Type} (env : Env α)
    (opts : RequestOptions) (fuel rc : Nat) (w : World) :
    TokenWriteDiscipline w (makeRequest env opts fuel rc w).1 := by
  induction fuel generalizing rc w with
  | zero => exact twd_refl w
  | succ fuel ih =>
    rw [makeRequest]
    dsimp only
    split
    · rename_i x w1 e hE
      have hTE : TokenWriteDiscipline w w1 := by
        have h := twd_ensure env w; rw [hE] at h; exact h
      split
      · exact twd_trans hTE (twd_trans (twd_waitMs _ _) (ih _ _))
      · exact hTE
    · rename_i x w1 hE
      have hTE : TokenWriteDiscipline w w1 := by
        have h := twd_ensure env w; rw [hE] at h; exact h
      split
      · rename_i x2 w2 e hA
        have hTA : TokenWriteDiscipline w w2 := by
          have h := twd_getAuth env w1; rw [hA] at h; exact twd_trans hTE h
        split
        · exact twd_trans hTA (twd_trans (twd_waitMs _ _) (ih _ _))
        · exact hTA
      · rename_i x2 w2 hdr hA
        have hTA : TokenWriteDiscipline w w2 := by
          have h := twd_getAuth env w1; rw [hA] at h; exact twd_trans hTE h
        have hbump : TokenWriteDiscipline w
            { w2 with fetches := w2.fetches + 1,
                      events := w2.events ++ [TraceEvent.httpAttempt] } :=
          twd_trans hTA (twd_of_same rfl rfl)
        split
        · split
          · exact twd_trans hbump (twd_trans (twd_waitMs _ _) (ih _ _))
          · exact hbump
        · rename_i x3 r hO
          split
          · refine twd_trans hbump (twd_trans ?_
              (twd_trans (twd_waitMs _ _) (ih _ _)))
            exact ⟨[.forceExpire401], by simp, fun _ => rfl,
              fun hc => absurd hc.2 (by decide)⟩
          · split
            · split
              · exact twd_trans hbump (twd_trans (twd_waitMs _ _) (ih _ _))
              · split
                · exact twd_trans hbump (twd_trans (twd_waitMs _ _) (ih _ _))
                · exact hbump
            · split
              · exact hbump
              · split
                · exact hbump
                · split
                  · exact twd_trans hbump (twd_trans (twd_waitMs _ _) (ih _ _))
                  · exact hbump

/-- Witness for C4 (amended): the discipline at a concrete run. -/
theorem claim_C4_amended_witness :
    TokenWriteDiscipline staticWorld0
      (makeRequest env400 getSecretsRequestOptions (maxRetries + 1) 0
        staticWorld0).1 :=
  claim_C4_amended_token_writes env400 getSecretsRequestOptions
    (maxRetries + 1) 0 staticWorld0

/-- C4, counterexample to the claim as stated: a dynamic client holding a
locally valid token receives a 401; `makeRequest`'s 401 branch sets the
stored expiry to 0 — a write to the token-expiry field outside the refresh
path.  In this run (every login attempt fails at the network level) the
write log contains only the force-expire write, no refresh-path write, yet
the stored expiry changed from 1000000000 to 0. -/
theorem claim_C4_counterexample :
    (runRequest envForceExpire getSecretsRequestOptions dynWorldValidTok).1.writes =
      [.forceExpire401] ∧
    (runRequest envForceExpire getSecretsRequestOptions
        dynWorldValidTok).1.creds.tokenExpiresAt = some 0 ∧
    dynWorldValidTok.creds.tokenExpiresAt = some 1000000000 :=
  ⟨rfl, rfl, rfl⟩

/-- C5, amended: any number of simultaneous operations on a dynamic client
with no prior token issue exactly one login call — the first slice to run
sets `tokenRefreshInProgress` and issues the login; every other slice finds
the flag set, schedules the fixed 500 ms sleep, and issues no login.  A
caller that requests a refresh while one is in flight does NOT wait for that
refresh to complete: it sleeps exactly 500 ms and returns. -/
theorem claim_C5_amended_single_login (n : Nat) :
    runSimultaneousOps (n + 1) ⟨false, 0⟩ =
      (⟨true, 1⟩, .startedLogin :: List.replicate n .sleeping500) ∧
    (∀ {β : Type} (env : Env β) (w : World), w.tokenRefreshInProgress = true →
      authenticateWithClientCredentials env w = (waitMs 500 w, .ok ())) := by
  constructor
  · have h := runSimultaneousOps_busy n ⟨true, 1⟩ rfl
    simp [runSimultaneousOps, authFirstSlice, h]
  · intro β env w hw
    unfold authenticateWithClientCredentials
    simp [hw]

/-- Witness for C5 (amended): three simultaneous operations, and a waiter on
a concrete busy client. -/
theorem claim_C5_amended_witness :
    runSimultaneousOps 3 ⟨false, 0⟩ =
      (⟨true, 1⟩, [.startedLogin, .sleeping500, .sleeping500]) ∧
    authenticateWithClientCredentials envSuccLogin busyRefreshWorld =
      (waitMs 500 busyRefreshWorld, .ok ()) :=
  ⟨by simpa using (claim_C5_amended_single_login 2).1,
   (claim_C5_amended_single_login 0).2 envSuccLogin busyRefreshWorld rfl⟩

/-- C5, counterexample to the claim as stated: the claim says a caller that
requests a refresh while one is in flight waits for that refresh to
complete.  The code's waiter instead sleeps a fixed 500 ms and returns
`ok`: here it returns with the access token still absent and no login call
of its own, and its behaviour is identical whether the in-flight login is
going to succeed or to fail — it never observes the in-flight refresh at
all. -/
theorem claim_C5_counterexample :
    authenticateWithClientCredentials envSuccLogin busyRefreshWorld =
      (waitMs 500 busyRefreshWorld, .ok ()) ∧
    (authenticateWithClientCredentials envSuccLogin
        busyRefreshWorld).1.creds.accessToken = none ∧
    (authenticateWithClientCredentials envSuccLogin
        busyRefreshWorld).1.loginCalls = 0 ∧
    (authenticateWithClientCredentials envSuccLogin
        busyRefreshWorld).1.waits = [500] ∧
    authenticateWithClientCredentials envFailLogin busyRefreshWorld =
      authenticateWithClientCredentials envSuccLogin busyRefreshWorld :=
  ⟨rfl, rfl, rfl, rfl, rfl⟩

/-- C6: for any native secret list `S`, import blocks `I` and folder list
`F` returned by the remote service, `getSecrets` returns `S` followed by the
concatenation of the import blocks' secret lists in remote order, with every
imported secret's `readonly` forced to `true` (regardless of its original
value, as `setReadonlyTrue` overrides the field), no de-duplication by key,
and the folder response's list as folders. -/
theorem claim_C6_aggregation (tok : String) (now0 : Int)
    (S : List InfisicalSecret) (I : List ImportBlock) (F : List InfisicalFolder) :
    (getSecrets (mkGetSecretsEnv ⟨some S, some I⟩ ⟨some F⟩) (mkStaticWorld tok now0)).2 =
      .ok (S ++ ((I.map ImportBlock.secrets).flatten).map setReadonlyTrue, F) ∧
    (((I.map ImportBlock.secrets).flatten).map setReadonlyTrue).all
      (fun s => s.readonly == some true) = true := by
  constructor
  · simp [getSecrets, runRequest, makeRequest, ensureValidToken,
      getAuthorizationHeader, mkStaticWorld, mkGetSecretsEnv,
      GetSecretsEnv.secretsEnv, GetSecretsEnv.foldersEnv, okJsonResponse,
      HttpResponse.isOk, RequestOptions.retryEnabled, getSecretsRequestOptions,
      getFoldersRequestOptions, aggregateSecrets, foldl_concat_blocks]
  · simp [List.all_eq_true, setReadonlyTrue]

/-- C7: `ensureValidToken` performs no network call at all for the
static-token strategy (the state is returned unchanged); for the dynamic
strategy it performs no login call when a token is present and its expiry is
strictly in the future, and performs exactly one login call when the token
is absent or the expiry is absent or not strictly in the future (for a
properly configured client with no refresh already in flight), never
touching the HTTP-attempt counter. -/
theorem claim_C7_ensureValidToken {α : Type} (env : Env α) (w : World)
    (h0 : 0 ≤ w.now) :
    (w.creds.type = .apiToken → ensureValidToken env w = (w, .ok ())) ∧
    (∀ s t, w.creds.type = .clientCredentials → w.creds.accessToken = some s →
      s ≠ "" → w.creds.tokenExpiresAt = some t → w.now < t →
      ensureValidToken env w = (w, .ok ())) ∧
    (w.creds.type = .clientCredentials → w.tokenRefreshInProgress = false →
      (∃ cid, w.creds.clientId = some cid ∧ cid ≠ "") →
      (∃ cs, w.creds.clientSecret = some cs ∧ cs ≠ "") →
      (jsFalsyStr w.creds.accessToken = true ∨ w.creds.tokenExpiresAt = none ∨
        ∃ t, w.creds.tokenExpiresAt = some t ∧ t ≤ w.now) →
      (ensureValidToken env w).1.loginCalls = w.loginCalls + 1 ∧
      (ensureValidToken env w).1.fetches = w.fetches) := by
  refine ⟨?_, ?_, ?_⟩
  · intro h
    simp [ensureValidToken, h]
  · intro s t hT hA hs hE hlt
    have h1 : jsFalsyStr (some s) = false := by simp [jsFalsyStr, hs]
    have h2 : jsFalsyInt (some t) = false := by
      simp only [jsFalsyInt, decide_eq_false_iff_not]
      omega
    have h3 : decide (w.now ≥ (some t).getD 0) = false := by
      simp only [Option.getD_some, decide_eq_false_iff_not]
      omega
    have hexp0 : isTokenExpired w = false := by
      unfold isTokenExpired
      rw [hA, hE]
      simp only [h1, h2, h3, Bool.or_false, Bool.or_self]
    simp [ensureValidToken, hT, hexp0]
  · intro hT hF hcid hcs hexp
    obtain ⟨cid, hcid1, hcid2⟩ := hcid
    obtain ⟨cs, hcs1, hcs2⟩ := hcs
    have hexp1 : isTokenExpired w = true := by
      unfold isTokenExpired
      rcases hexp with h | h | ⟨t, ht, hle⟩
      · simp [h]
      · simp [h, jsFalsyInt]
      · rw [ht]
        rcases eq_or_ne t 0 with h9 | h9
        · simp [jsFalsyInt, h9]
        · have h8 : decide (w.now ≥ (some t).getD 0) = true := by
            simp only [Option.getD_some, decide_eq_true_eq]
            omega
          simp only [h8, Bool.or_true]
    have hred : ensureValidToken env w = authenticateWithClientCredentials env w := by
      simp [ensureValidToken, hT, hexp1]
    rw [hred]
    unfold authenticateWithClientCredentials
    rw [if_neg (by simp [hF])]
    rw [if_neg (by simp [jsFalsyStr, hcid1, hcid2, hcs1, hcs2])]
    rcases env.loginOutcome w.loginCalls with m | ⟨st, b⟩ | m | ⟨tk, ei⟩ <;> simp

/-- Witness for C7: a dynamic client with no token performs exactly one
login call. -/
theorem claim_C7_witness :
    (ensureValidToken envSuccLogin
        (mkDynWorld "test-client-id" "test-client-secret" none none 5)).1.loginCalls =
      (mkDynWorld "test-client-id" "test-client-secret" none none 5).loginCalls + 1 :=
  ((claim_C7_ensureValidToken envSuccLogin
      (mkDynWorld "test-client-id" "test-client-secret" none none 5)
      (by decide)).2.2 rfl rfl
    ⟨"test-client-id", rfl, by decide⟩
    ⟨"test-client-secret", rfl, by decide⟩ (Or.inl rfl)).1

/-- C8: `updateSecret` carries the new name in `newSecretName` only when the
key is renamed: the field is absent (dropped by `JSON.stringify`) when the
new key equals the identifying key, equals the new key when they differ, and
the identifying key always stays in the request path. -/
theorem claim_C8_updateSecret (secretData : InfisicalSecretUpdateRequest)
    (secretId : String) :
    ((updateSecretRequestParts secretData secretId).2.newSecretName =
      if secretData.secretKey = secretId then none else some secretData.secretKey) ∧
    ("newSecretName" ∈ (updateSecretRequestParts secretData secretId).2.serializedKeys ↔
      secretData.secretKey ≠ secretId) ∧
    (updateSecretRequestParts secretData secretId).1 = "/v3/secrets/raw/" ++ secretId := by
  refine ⟨?_, ?_, rfl⟩
  · by_cases h : secretData.secretKey = secretId <;>
      simp [updateSecretRequestParts, h]
  · by_cases h : secretData.secretKey = secretId <;>
      rcases hsp : secretData.secretPath with _ | sp <;>
      rcases henv : secretData.environment with _ | ev <;>
      simp [updateSecretRequestParts, UpdateSecretBody.serializedKeys, h, hsp, henv]

/-- C9: error classification is a total function (it never throws).  If the
response declares a JSON content type and its body parses to an object with
a truthy `message`, the result is the generic API error carrying the status
and that message; otherwise the body is read as text and mapped by status
(404 to NotFound, 409 to Conflict, 400 to InvalidInput, anything else to the
generic API error with status and text); and if reading or parsing the error
body itself fails, the result is the generic API error with the fixed
failed-to-parse message. -/
theorem claim_C9_classification {α : Type} (r : HttpResponse α) :
    (∀ m, jsonContentTypeDeclared r = true → r.errJson = .ok (some m) → m ≠ "" →
      parseErrorResponse r =
        .error ("Infisical API error (" ++ toString r.status ++ "): " ++ m)) ∧
    (∀ txt, jsonContentTypeDeclared r = false → r.textBody = .ok txt →
      parseErrorResponse r =
        (if r.status = 404 then .notFoundError ("Resource not found: " ++ txt)
         else if r.status = 409 then .conflictError ("Conflict: " ++ txt)
         else if r.status = 400 then .inputError ("Bad request: " ++ txt)
         else .error ("Infisical API error (" ++ toString r.status ++ "): " ++ txt))) ∧
    (∀ msg, jsonContentTypeDeclared r = true → r.errJson = .error msg →
      parseErrorResponse r = .error ("Infisical API error (" ++ toString r.status ++
        "): Failed to parse error response")) ∧
    (∀ msg, jsonContentTypeDeclared r = false → r.textBody = .error msg →
      parseErrorResponse r = .error ("Infisical API error (" ++ toString r.status ++
        "): Failed to parse error response")) := by
  refine ⟨?_, ?_, ?_, ?_⟩
  · intro m hct hej hm
    simp [parseErrorResponse, hct, hej, jsFalsyStr, jsStr, hm]
  · intro txt hct htb
    simp [parseErrorResponse, hct, htb]
  · intro msg hct hej
    simp [parseErrorResponse, hct, hej]
  · intro msg hct hej
    simp [parseErrorResponse, hct, hej]

/-- Witness for C9: classification of a concrete JSON-bodied 418 response. -/
theorem claim_C9_witness :
    parseErrorResponse respJson418 = .error "Infisical API error (418): teapot" :=
  ((claim_C9_classification respJson418).1 "teapot" rfl rfl
    (by decide)).trans (by decide)

/-- C10: `getSecrets` never fails on a successful remote response with
absent `secrets`, `imports` or `folders` fields — each missing list is
treated as empty, so the returned secrets and folders are always
well-defined lists. -/
theorem claim_C10_absent_lists (tok : String) (now0 : Int)
    (sr : InfisicalSecretsResponse) (fr : InfisicalFoldersResponse) :
    (getSecrets (mkGetSecretsEnv sr fr) (mkStaticWorld tok now0)).2 =
      .ok ((sr.secrets.getD []) ++
            (((sr.imports.getD []).map ImportBlock.secrets).flatten).map setReadonlyTrue,
           fr.folders.getD []) := by
  rcases sr with ⟨os, oi⟩
  rcases oi with _ | I
  · simp [getSecrets, runRequest, makeRequest, ensureValidToken,
      getAuthorizationHeader, mkStaticWorld, mkGetSecretsEnv,
      GetSecretsEnv.secretsEnv, GetSecretsEnv.foldersEnv, okJsonResponse,
      HttpResponse.isOk, RequestOptions.retryEnabled, getSecretsRequestOptions,
      getFoldersRequestOptions, aggregateSecrets]
  · simp [getSecrets, runRequest, makeRequest, ensureValidToken,
      getAuthorizationHeader, mkStaticWorld, mkGetSecretsEnv,
      GetSecretsEnv.secretsEnv, GetSecretsEnv.foldersEnv, okJsonResponse,
      HttpResponse.isOk, RequestOptions.retryEnabled, getSecretsRequestOptions,
      getFoldersRequestOptions, aggregateSecrets, foldl_concat_blocks]

end InfisicalClient
